import Mathlib

/-!
Verification development for the QC-review assistant (src/app2.py).

The program loads a tabular file into a pandas dataframe, validates that the
two essential columns are present, creates a default review-status column when
absent, and answers three read queries: distinct auditors, filter by
auditor/status, and per-field value lookup with an "N/A" fallback.

Embedding choices:
* a cell is `Option String`; `none` models a pandas NaN / null value;
* a row is an association list from column name to cell, in column order
  (a pandas row indexed by the dataframe columns);
* a dataframe `DF` is the ordered column list plus the ordered row list.
-/

namespace QCReview

/-! Column-name configuration, src/app2.py lines 14-58. -/

def AUDITOR_COL : String := "auditor"

def ADDRESS_ID_COL : String := "addressid"

def WEEK_COL : String := "week"

def PROGRAM_COL : String := "program"

def TRACKING_ID_COL : String := "trackingid"

def PDP_PRE_DP_COL : String := "pdp_pre_dp_geocodes"

def PRE_RE_GEOCODES_COL : String := "pre_re_geocodes"

def AUDITOR_GRAN_DP_COL : String := "auditor_granularity_dp"

def AUDITOR_GRAN_RE_COL : String := "auditor_granularity_re"

def DP_GEOCODES_COL : String := "dp_geocodes"

def RE_GEOCODES_COL : String := "re_geocodes"

def ACTION_TAKEN_COL : String := "action_taken"

def AUDITOR_PRE_TOL_COL : String := "auditor_pre_tolerance"

def AUDITOR_POST_TOL_COL : String := "post_tolerance"

def DP_DISAGREE_COL : String := "dp_disagreement"

def RE_DISAGREE_COL : String := "re_disagreement"

def GF_DISAGREE_COL : String := "geofence_disagreement"

def QC_DP_GRAN_COL : String := "qc_dp_granularity"

def QC_RE_GRAN_COL : String := "qc_re_granularity"

def QC2_DP_COL : String := "qc2_dp"

def QC2_RE_COL : String := "qc2_re"

def QC2_TOL_COL : String := "qc2_tolerance"

def AUDITOR_COMMENT_COL : String := "auditor_comment"

def QC2_COMMENT_COL : String := "qc2_comment"

def QC2_SOURCE_COL : String := "qc2_source"

def QC2_GAM_ISSUE_COL : String := "qc2_gam_issue"

def REASON_DP_COL : String := "reason_dp_issue"

def REASON_RE_COL : String := "reason_re_issue"

def REASON_GF_COL : String := "reason_geofence_issue"

def STATUS_COL : String := "review_status"

/-- Cell of the table; `none` models a pandas NaN / null value. -/
abbrev Cell := Option String

/-- Row of the table: association list from column name to cell. -/
abbrev Row := List (String × Cell)

/-- Helper of src/app2.py lines 62-65: `get_val(row, col_name, default="N/A")`
returns `row[col_name]` when the column is in the row index and the value is
not null, and the default otherwise. -/
def get_val (row : Row) (col_name : String) (default : String := "N/A") :
    String :=
  match row.lookup col_name with
  | some (some v) => v
  | _ => default

/-- Dataframe: ordered column list plus ordered row list. -/
structure DF where
  cols : List String
  rows : List Row
deriving DecidableEq

/-- Well-formedness of a parsed table: every row is indexed by exactly the
dataframe columns, in order (pandas rows share the dataframe columns). -/
def DF.Wf (df : DF) : Prop := ∀ r ∈ df.rows, r.map Prod.fst = df.cols

instance (df : DF) : Decidable df.Wf := by
  unfold DF.Wf
  infer_instance

/-- Essential columns, src/app2.py line 96: `needed = [AUDITOR_COL, ADDRESS_ID_COL]`. -/
def needed : List String := [AUDITOR_COL, ADDRESS_ID_COL]

/-- Missing essential columns, src/app2.py line 97:
`missing = [c for c in needed if c not in df.columns]`. -/
def missingCols (df : DF) : List String :=
  needed.filter (fun c => !(df.cols.contains c))

/-- Status-column creation, src/app2.py lines 102-103: when `STATUS_COL` is not
among the columns, a new column is appended with value "Pending" in every row;
otherwise the dataframe is unchanged. -/
def createStatusCol (df : DF) : DF :=
  if df.cols.contains STATUS_COL then df
  else
    { cols := df.cols ++ [STATUS_COL]
      rows := df.rows.map (fun r => r ++ [(STATUS_COL, some "Pending")]) }

/-- Load guard, src/app2.py lines 96-111: when an essential column is missing
the upload is rejected (`st.error`, modelled as `none`) and the guarded block
that builds the repository state never runs; otherwise the status column is
created if absent and the loaded dataframe is available. -/
def load (df : DF) : Option DF :=
  if missingCols df = [] then some (createStatusCol df) else none

/-! Association-list lookup helper lemmas. -/

theorem lookup_eq_none_of_not_mem_keys {β : Type} (l : List (String × β))
    (k : String) (h : k ∉ l.map Prod.fst) : l.lookup k = none := by
  induction l with
  | nil => rfl
  | cons p t ih =>
    obtain ⟨a, b⟩ := p
    simp only [List.map_cons, List.mem_cons, not_or] at h
    have hk : (k == a) = false := by
      exact beq_false_of_ne h.1
    simp [List.lookup, hk, ih h.2]

theorem lookup_append_of_none {β : Type} (l₁ l₂ : List (String × β))
    (k : String) (h : l₁.lookup k = none) :
    (l₁ ++ l₂).lookup k = l₂.lookup k := by
  induction l₁ with
  | nil => rfl
  | cons p t ih =>
    obtain ⟨a, b⟩ := p
    by_cases hk : k = a
    · subst hk
      simp [List.lookup] at h
    · have hk2 : (k == a) = false := beq_false_of_ne hk
      simp only [List.lookup, hk2, cond_false] at h ⊢
      exact ih h

theorem contains_iff_mem (l : List String) (a : String) :
    l.contains a = true ↔ a ∈ l := List.elem_iff

/-! Claim C1. -/

/-- Dataframe whose single row has a null status cell while the status column
is present in the file. -/
def dfStatusNull : DF :=
  { cols := [AUDITOR_COL, ADDRESS_ID_COL, STATUS_COL]
    rows := [[(AUDITOR_COL, some "Alice"), (ADDRESS_ID_COL, some "A1"),
              (STATUS_COL, none)]] }

/-- C1 counterexample: a row whose status cell is null at load time (the
status column being present in the file) keeps the null status after load;
its status does not equal "Pending", refuting the claim at this input. -/
theorem load_null_status_not_pending :
    load dfStatusNull = some dfStatusNull ∧
    dfStatusNull.rows.map (fun r => r.lookup STATUS_COL) = [some none] ∧
    ¬ dfStatusNull.rows.map (fun r => r.lookup STATUS_COL)
        = [some (some "Pending")] := by
  refine ⟨by decide, by decide, by decide⟩

/-- C1 (amended): when the status column is entirely absent from the file,
every row of the loaded table has status "Pending"; when the status column is
present, load leaves the dataframe (hence every status cell, null ones
included) unchanged. -/
theorem load_status_default (df ldf : DF) (hw : df.Wf)
    (hload : load df = some ldf) :
    (STATUS_COL ∉ df.cols →
      ∀ r ∈ ldf.rows, r.lookup STATUS_COL = some (some "Pending")) ∧
    (STATUS_COL ∈ df.cols → ldf = df) := by
  have hmiss : missingCols df = [] := by
    by_cases h : missingCols df = []
    · exact h
    · simp [load, h] at hload
  have hldf : ldf = createStatusCol df := by
    simp [load, hmiss] at hload
    exact hload.symm
  subst hldf
  constructor
  · intro habs r hr
    have hcontains : df.cols.contains STATUS_COL = false := by
      by_cases h : df.cols.contains STATUS_COL = true
      · exact absurd ((contains_iff_mem _ _).mp h) habs
      · simpa using h
    simp only [createStatusCol, hcontains, Bool.false_eq_true, if_false,
      List.mem_map] at hr
    obtain ⟨r0, hr0, hreq⟩ := hr
    subst hreq
    have hkeys : r0.map Prod.fst = df.cols := hw r0 hr0
    have hnone : r0.lookup STATUS_COL = none := by
      apply lookup_eq_none_of_not_mem_keys
      rw [hkeys]
      exact habs
    rw [lookup_append_of_none _ _ _ hnone]
    simp [List.lookup]
  · intro hmem
    have hcontains : df.cols.contains STATUS_COL = true :=
      (contains_iff_mem _ _).mpr hmem
    unfold createStatusCol
    rw [if_pos hcontains]

/-- Dataframe with no status column at all. -/
def dfNoStatus : DF :=
  { cols := [AUDITOR_COL, ADDRESS_ID_COL]
    rows := [[(AUDITOR_COL, some "Alice"), (ADDRESS_ID_COL, some "A1")]] }

/-- Witness for the amended C1 theorem at a concrete input. -/
theorem load_status_default_witness :
    (STATUS_COL ∉ dfNoStatus.cols →
      ∀ r ∈ (createStatusCol dfNoStatus).rows,
        r.lookup STATUS_COL = some (some "Pending")) ∧
    (STATUS_COL ∈ dfNoStatus.cols → createStatusCol dfNoStatus = dfNoStatus) :=
  load_status_default dfNoStatus (createStatusCol dfNoStatus)
    (by decide) (by decide)

/-! Claim C2. -/

/-- C2: when the auditor column or the address-id column is absent from the
uploaded table, load fails (the `st.error` branch, modelled as `none`) and no
loaded dataframe exists for any query to operate on. -/
theorem load_missing_essential_fails (df : DF)
    (h : AUDITOR_COL ∉ df.cols ∨ ADDRESS_ID_COL ∉ df.cols) :
    load df = none ∧ ∀ ldf : DF, load df ≠ some ldf := by
  have hmiss : missingCols df ≠ [] := by
    intro hempty
    unfold missingCols at hempty
    rw [List.filter_eq_nil_iff] at hempty
    rcases h with h | h
    · have h2 := hempty AUDITOR_COL (by simp [needed])
      simp at h2
      exact h h2
    · have h2 := hempty ADDRESS_ID_COL (by simp [needed])
      simp at h2
      exact h h2
  constructor
  · simp [load, hmiss]
  · intro ldf hsome
    simp [load, hmiss] at hsome

/-- Dataframe lacking the auditor column. -/
def dfNoAuditor : DF :=
  { cols := [ADDRESS_ID_COL, STATUS_COL]
    rows := [[(ADDRESS_ID_COL, some "A1"), (STATUS_COL, some "Pending")]] }

/-- Witness for the C2 theorem at a concrete input. -/
theorem load_missing_essential_fails_witness :
    load dfNoAuditor = none ∧ ∀ ldf : DF, load dfNoAuditor ≠ some ldf :=
  load_missing_essential_fails dfNoAuditor (Or.inl (by decide))

/-! Filtering, src/app2.py lines 122-129. -/

/-- Predicate of the mask `df[AUDITOR_COL] == auditor_name`: a cell equals the
selected auditor name exactly (a null cell compares unequal in pandas). -/
def auditorEq (auditor_name : String) (r : Row) : Bool :=
  match r.lookup AUDITOR_COL with
  | some (some v) => v == auditor_name
  | _ => false

/-- Predicate of the mask `filtered_df[STATUS_COL] == status_filter`. -/
def statusEq (status_filter : String) (r : Row) : Bool :=
  match r.lookup STATUS_COL with
  | some (some v) => v == status_filter
  | _ => false

/-- Filter step of src/app2.py lines 122-125: select the rows whose auditor
cell equals the selected name (into a copy), then, when a status filter is
given and is truthy and differs from "All", keep only the rows whose status
cell equals it. -/
def filterCases (df : DF) (auditor_name : String)
    (status_filter : Option String) : DF :=
  match status_filter with
  | none => { cols := df.cols, rows := df.rows.filter (auditorEq auditor_name) }
  | some s =>
    if s ≠ "" ∧ s ≠ "All" then
      { cols := df.cols,
        rows := (df.rows.filter (auditorEq auditor_name)).filter (statusEq s) }
    else { cols := df.cols, rows := df.rows.filter (auditorEq auditor_name) }

theorem DF.eq_of (d1 d2 : DF) (hc : d1.cols = d2.cols) (hr : d1.rows = d2.rows) :
    d1 = d2 := by
  cases d1
  cases d2
  cases hc
  cases hr
  rfl

theorem filterCases_cols (df : DF) (a : String) (s : Option String) :
    (filterCases df a s).cols = df.cols := by
  cases s with
  | none => rfl
  | some st =>
    by_cases hst : st ≠ "" ∧ st ≠ "All"
    · show (if st ≠ "" ∧ st ≠ "All" then _ else _ : DF).cols = _
      rw [if_pos hst]
    · show (if st ≠ "" ∧ st ≠ "All" then _ else _ : DF).cols = _
      rw [if_neg hst]

theorem filterCases_none_rows (df : DF) (a : String) :
    (filterCases df a none).rows = df.rows.filter (auditorEq a) := rfl

theorem filterCases_some_rows_act (df : DF) (a st : String)
    (h : st ≠ "" ∧ st ≠ "All") :
    (filterCases df a (some st)).rows =
      (df.rows.filter (auditorEq a)).filter (statusEq st) := by
  show (if st ≠ "" ∧ st ≠ "All" then _ else _ : DF).rows = _
  rw [if_pos h]

theorem filterCases_some_rows_all (df : DF) (a st : String)
    (h : ¬ (st ≠ "" ∧ st ≠ "All")) :
    (filterCases df a (some st)).rows = df.rows.filter (auditorEq a) := by
  show (if st ≠ "" ∧ st ≠ "All" then _ else _ : DF).rows = _
  rw [if_neg h]

theorem auditorEq_iff (a : String) (r : Row) :
    auditorEq a r = true ↔ r.lookup AUDITOR_COL = some (some a) := by
  unfold auditorEq
  cases h : r.lookup AUDITOR_COL with
  | none => simp
  | some c =>
    cases c with
    | none => simp
    | some v => simp [beq_iff_eq]

/-! Claim C4. -/

/-- C4: with no status filter, filtering by auditor returns exactly the rows
whose auditor cell equals the given value under exact string equality, as a
subsequence of the loaded rows (hence in original load order), and the result
is empty when no row matches. The auditor value is arbitrary, values absent
from the data included. -/
theorem filter_none_characterisation (df : DF) (a : String) :
    ((filterCases df a none).rows.Sublist df.rows) ∧
    (∀ r : Row, r ∈ (filterCases df a none).rows ↔
      r ∈ df.rows ∧ r.lookup AUDITOR_COL = some (some a)) ∧
    ((∀ r ∈ df.rows, r.lookup AUDITOR_COL ≠ some (some a)) →
      (filterCases df a none).rows = []) := by
  refine ⟨List.filter_sublist _, ?_, ?_⟩
  · intro r
    rw [show (filterCases df a none).rows = df.rows.filter (auditorEq a) from rfl]
    rw [List.mem_filter, auditorEq_iff]
  · intro hnone
    rw [show (filterCases df a none).rows = df.rows.filter (auditorEq a) from rfl]
    rw [List.filter_eq_nil_iff]
    intro r hr
    rw [auditorEq_iff]
    exact hnone r hr

/-- Witness for the C4 theorem at a concrete input: one matching and one
non-matching row, and emptiness for an auditor value absent from the data. -/
theorem filter_none_characterisation_witness :
    ([(AUDITOR_COL, some "Alice")] : Row) ∈
      (filterCases
        { cols := [AUDITOR_COL],
          rows := [[(AUDITOR_COL, some "Alice")], [(AUDITOR_COL, some "Bob")]] }
        "Alice" none).rows ∧
    (filterCases
        { cols := [AUDITOR_COL],
          rows := [[(AUDITOR_COL, some "Alice")], [(AUDITOR_COL, some "Bob")]] }
        "Zoe" none).rows = [] := by
  constructor
  · exact ((filter_none_characterisation
      { cols := [AUDITOR_COL],
        rows := [[(AUDITOR_COL, some "Alice")], [(AUDITOR_COL, some "Bob")]] }
      "Alice").2.1 _).mpr ⟨by decide, by decide⟩
  · exact (filter_none_characterisation
      { cols := [AUDITOR_COL],
        rows := [[(AUDITOR_COL, some "Alice")], [(AUDITOR_COL, some "Bob")]] }
      "Zoe").2.2 (by decide)

/-! Claim C5. -/

theorem filter_self_eq_filter_filter (p : Row → Bool) (l : List Row) :
    (l.filter p).filter p = l.filter p := by
  rw [List.filter_filter]
  apply List.filter_congr
  intro r _
  cases h : p r <;> simp [h]

/-- C5: filtering an already-filtered result by the same auditor and the same
status filter (the no-status-filter case included) returns the same dataframe,
rows in the same order. -/
theorem filter_idempotent (df : DF) (a : String) (s : Option String) :
    filterCases (filterCases df a s) a s = filterCases df a s := by
  apply DF.eq_of
  · rw [filterCases_cols]
  · cases s with
    | none =>
      rw [filterCases_none_rows, filterCases_none_rows]
      exact filter_self_eq_filter_filter _ _
    | some st =>
      by_cases hst : st ≠ "" ∧ st ≠ "All"
      · rw [filterCases_some_rows_act _ _ _ hst, filterCases_some_rows_act _ _ _ hst]
        simp only [List.filter_filter]
        apply List.filter_congr
        intro r _
        cases hA : auditorEq a r <;> cases hS : statusEq st r <;> simp [hA, hS]
      · rw [filterCases_some_rows_all _ _ _ hst, filterCases_some_rows_all _ _ _ hst]
        exact filter_self_eq_filter_filter _ _

/-! Distinct auditors, src/app2.py line 105:
`auditors = sorted(df[AUDITOR_COL].dropna().astype(str).unique())`. -/

/-- Auditor cell of a row, with the column-absent and null cases collapsed
(`dropna` removes both). -/
def auditorCell (r : Row) : Option String := (r.lookup AUDITOR_COL).join

/-- Distinct auditors, src/app2.py line 105: drop null auditor cells, remove
duplicates, and sort ascending. Pandas `unique` keeps first occurrences while
`List.dedup` keeps last ones; the subsequent ascending sort of the duplicate
free value set yields the same list either way. -/
def distinct_auditors (df : DF) : List String :=
  List.insertionSort (· ≤ ·) (df.rows.filterMap auditorCell).dedup

/-! Claim C6. -/

/-- C6: the distinct-auditor list is sorted ascending, has each value once,
contains exactly the non-null auditor values of the loaded rows (null auditor
cells excluded), and is empty for an empty record set. -/
theorem distinct_auditors_charact (df : DF) :
    List.Sorted (· ≤ ·) (distinct_auditors df) ∧
    (distinct_auditors df).Nodup ∧
    (∀ v : String, v ∈ distinct_auditors df ↔
      ∃ r ∈ df.rows, r.lookup AUDITOR_COL = some (some v)) ∧
    (df.rows = [] → distinct_auditors df = []) := by
  refine ⟨List.sorted_insertionSort _ _, ?_, ?_, ?_⟩
  · exact (List.perm_insertionSort _ _).symm.nodup (List.nodup_dedup _)
  · intro v
    unfold distinct_auditors
    rw [(List.perm_insertionSort _ _).mem_iff, List.mem_dedup, List.mem_filterMap]
    constructor
    · rintro ⟨r, hr, hcell⟩
      exact ⟨r, hr, Option.join_eq_some.mp hcell⟩
    · rintro ⟨r, hr, hcell⟩
      exact ⟨r, hr, Option.join_eq_some.mpr hcell⟩
  · intro hempty
    rw [show distinct_auditors df
        = List.insertionSort (· ≤ ·) (df.rows.filterMap auditorCell).dedup from rfl]
    rw [hempty]
    rfl

/-- Witness for the C6 theorem at concrete inputs: the end-to-end example of
the spec (rows by Alice, Alice, Bob) and the empty record set. -/
theorem distinct_auditors_charact_witness :
    "Bob" ∈ distinct_auditors
      { cols := [AUDITOR_COL, ADDRESS_ID_COL]
        rows := [[(AUDITOR_COL, some "Alice"), (ADDRESS_ID_COL, some "A1")],
                 [(AUDITOR_COL, some "Alice"), (ADDRESS_ID_COL, some "A2")],
                 [(AUDITOR_COL, some "Bob"), (ADDRESS_ID_COL, some "B1")]] } ∧
    distinct_auditors { cols := [AUDITOR_COL, ADDRESS_ID_COL], rows := [] } = [] := by
  constructor
  · exact ((distinct_auditors_charact
      { cols := [AUDITOR_COL, ADDRESS_ID_COL]
        rows := [[(AUDITOR_COL, some "Alice"), (ADDRESS_ID_COL, some "A1")],
                 [(AUDITOR_COL, some "Alice"), (ADDRESS_ID_COL, some "A2")],
                 [(AUDITOR_COL, some "Bob"), (ADDRESS_ID_COL, some "B1")]] }).2.2.1
      "Bob").mpr
      ⟨[(AUDITOR_COL, some "Bob"), (ADDRESS_ID_COL, some "B1")],
        by decide, by decide⟩
  · exact (distinct_auditors_charact
      { cols := [AUDITOR_COL, ADDRESS_ID_COL], rows := [] }).2.2.2 rfl

/-! Fetch by identifier, src/app2.py lines 185-188. -/

/-- Pandas `astype(str)` on a cell: a null cell becomes the string "nan". -/
def cellStr (c : Cell) : String :=
  match c with
  | some v => v
  | none => "nan"

/-- String-cast address id of a row, as in
`filtered_df[ADDRESS_ID_COL].astype(str)`. -/
def addressIdStr (r : Row) : String := cellStr (r.lookup ADDRESS_ID_COL).join

/-- Fetch by identifier, src/app2.py line 188:
`case_row = filtered_df[filtered_df[ADDRESS_ID_COL].astype(str) == selected_case_id].iloc[0]`
keeps the rows whose string-cast address id equals the selected id and takes
the first; `iloc[0]` on an empty selection raises, modelled by `Option`. -/
def fetchCase (df : DF) (selected_case_id : String) : Option Row :=
  (df.rows.filter (fun r => addressIdStr r == selected_case_id)).head?

/-! Claim C8. -/

/-- C8: when several rows share the selected address id (duplicates within one
auditor's filtered rows included), fetch by identifier returns the first
matching row in load order: for any split of the rows into a prefix with no
match, a matching row, and an arbitrary tail, the fetch succeeds and returns
that row, later matches notwithstanding. -/
theorem fetchCase_first_match (df : DF) (cid : String)
    (pre : List Row) (r : Row) (post : List Row)
    (hsplit : df.rows = pre ++ r :: post)
    (hr : addressIdStr r = cid)
    (hpre : ∀ p ∈ pre, addressIdStr p ≠ cid) :
    fetchCase df cid = some r := by
  unfold fetchCase
  rw [hsplit, List.filter_append]
  have hprenil : pre.filter (fun p => addressIdStr p == cid) = [] := by
    rw [List.filter_eq_nil_iff]
    intro p hp
    simp [hpre p hp]
  rw [hprenil]
  rw [List.filter_cons]
  have hrq : (addressIdStr r == cid) = true := by
    rw [beq_iff_eq]
    exact hr
  rw [if_pos hrq]
  rfl

/-- Dataframe whose auditor has two rows with the same address id. -/
def dfDupIds : DF :=
  { cols := [AUDITOR_COL, ADDRESS_ID_COL, WEEK_COL]
    rows := [[(AUDITOR_COL, some "Alice"), (ADDRESS_ID_COL, some "A1"),
              (WEEK_COL, some "w1")],
             [(AUDITOR_COL, some "Alice"), (ADDRESS_ID_COL, some "A1"),
              (WEEK_COL, some "w2")]] }

/-- Witness for the C8 theorem: with duplicate address ids, the first row in
load order is returned, not the later one. -/
theorem fetchCase_first_match_witness :
    fetchCase dfDupIds "A1" =
      some [(AUDITOR_COL, some "Alice"), (ADDRESS_ID_COL, some "A1"),
            (WEEK_COL, some "w1")] :=
  fetchCase_first_match dfDupIds "A1" []
    [(AUDITOR_COL, some "Alice"), (ADDRESS_ID_COL, some "A1"),
     (WEEK_COL, some "w1")]
    [[(AUDITOR_COL, some "Alice"), (ADDRESS_ID_COL, some "A1"),
      (WEEK_COL, some "w2")]]
    (by decide) (by decide) (by decide)

/-! Schema Registry. The program holds the logical-name-to-column mapping as
the module-level constants of src/app2.py lines 14-58; the spec reframes them
as a registry with a resolve operation. -/

/-- Modelled from the spec: the Schema Registry table of spec sections 2, 3
and 4.1 (no resolve operation exists in src/app2.py; the mapping lives in the
module-level column constants of lines 14-58, paired here with the logical
field names the spec enumerates in section 3). -/
def schemaTable : List (String × String) :=
  [("auditor", AUDITOR_COL),
   ("address_id", ADDRESS_ID_COL),
   ("week", WEEK_COL),
   ("program", PROGRAM_COL),
   ("tracking_id", TRACKING_ID_COL),
   ("pdp_pre_dp_geocodes", PDP_PRE_DP_COL),
   ("pre_re_geocodes", PRE_RE_GEOCODES_COL),
   ("auditor_granularity_dp", AUDITOR_GRAN_DP_COL),
   ("auditor_granularity_re", AUDITOR_GRAN_RE_COL),
   ("dp_geocodes", DP_GEOCODES_COL),
   ("re_geocodes", RE_GEOCODES_COL),
   ("action_taken", ACTION_TAKEN_COL),
   ("auditor_pre_tolerance", AUDITOR_PRE_TOL_COL),
   ("post_tolerance", AUDITOR_POST_TOL_COL),
   ("dp_disagreement", DP_DISAGREE_COL),
   ("re_disagreement", RE_DISAGREE_COL),
   ("geofence_disagreement", GF_DISAGREE_COL),
   ("qc_dp_granularity", QC_DP_GRAN_COL),
   ("qc_re_granularity", QC_RE_GRAN_COL),
   ("qc2_dp", QC2_DP_COL),
   ("qc2_re", QC2_RE_COL),
   ("qc2_tolerance", QC2_TOL_COL),
   ("auditor_comment", AUDITOR_COMMENT_COL),
   ("qc2_comment", QC2_COMMENT_COL),
   ("qc2_source", QC2_SOURCE_COL),
   ("qc2_gam_issue", QC2_GAM_ISSUE_COL),
   ("reason_dp_issue", REASON_DP_COL),
   ("reason_re_issue", REASON_RE_COL),
   ("reason_geofence_issue", REASON_GF_COL),
   ("status", STATUS_COL)]

/-- Known logical field names: the keys of the registry table. -/
def logicalNames : List String := schemaTable.map Prod.fst

/-- Modelled from the spec: `resolve(logical_name)` of spec section 4.1 (no
such operation exists in src/app2.py); pure lookup in the registry table,
`none` modelling the `ConfigurationError` for a name outside the known set. -/
def resolve (logical_name : String) : Option String :=
  schemaTable.lookup logical_name

/-- Modelled from the spec: `get_field(record, logical_name)` of spec section
4.2 (src/app2.py calls `get_val` directly with the column constants); resolves
the logical name through the registry and reads the record with `get_val`
(src/app2.py lines 62-65), an unresolvable name yielding the sentinel. -/
def get_field (r : Row) (logical_name : String) : String :=
  match resolve logical_name with
  | some col => get_val r col
  | none => "N/A"

theorem get_field_resolved (r : Row) (name col : String)
    (h : resolve name = some col) : get_field r name = get_val r col := by
  unfold get_field
  rw [h]

theorem get_val_of_lookup_none (r : Row) (c : String)
    (h : r.lookup c = none) : get_val r c = "N/A" := by
  unfold get_val
  rw [h]

theorem get_val_of_lookup_null (r : Row) (c : String)
    (h : r.lookup c = some none) : get_val r c = "N/A" := by
  unfold get_val
  rw [h]

theorem get_val_of_lookup_val (r : Row) (c v : String)
    (h : r.lookup c = some (some v)) : get_val r c = v := by
  unfold get_val
  rw [h]

theorem lookup_isSome_of_mem_keys {β : Type} (l : List (String × β))
    (k : String) (h : k ∈ l.map Prod.fst) : (l.lookup k).isSome := by
  induction l with
  | nil => simp at h
  | cons p t ih =>
    obtain ⟨a, b⟩ := p
    by_cases hk : k = a
    · subst hk
      simp [List.lookup]
    · have hk2 : (k == a) = false := beq_false_of_ne hk
      simp only [List.map_cons, List.mem_cons] at h
      rcases h with h | h
      · exact absurd h hk
      · simp [List.lookup, hk2, ih h]

/-! Claim C9. -/

/-- C9: resolve is total on the fixed enumerated set of logical names (each
name of the table resolves to its mapped column, the key set having no
duplicates), and it fails (`none`, the `ConfigurationError` case) for exactly
the names outside the known set. -/
theorem resolve_total_on_known_names :
    logicalNames.Nodup ∧
    (∀ p ∈ schemaTable, resolve p.1 = some p.2) ∧
    (∀ name : String, resolve name = none ↔ name ∉ logicalNames) := by
  refine ⟨by decide, by decide, ?_⟩
  intro name
  constructor
  · intro hnone hmem
    have hsome := lookup_isSome_of_mem_keys schemaTable name hmem
    rw [show resolve name = schemaTable.lookup name from rfl] at hnone
    rw [hnone] at hsome
    simp at hsome
  · intro hnot
    exact lookup_eq_none_of_not_mem_keys _ _ hnot

/-- Witness for the C9 theorem at concrete names: a known name resolves to its
column, an unknown one fails. -/
theorem resolve_total_on_known_names_witness :
    resolve "auditor" = some AUDITOR_COL ∧ resolve "unknown_name" = none := by
  constructor
  · exact resolve_total_on_known_names.2.1 ("auditor", AUDITOR_COL) (by decide)
  · exact (resolve_total_on_known_names.2.2 "unknown_name").mpr (by decide)

/-! Claim C3. -/

/-- Row whose auditor cell stores the literal string "N/A". -/
def rowStoredNA : Row := [(AUDITOR_COL, some "N/A")]

/-- C3 counterexample: on a record whose auditor cell stores the literal
string "N/A", `get_field` returns "N/A" although the name resolves and the
resolved column is present with a non-null value, refuting the only-if
direction of the claimed equivalence at this input. -/
theorem get_field_sentinel_collision :
    ¬ (get_field rowStoredNA "auditor" = "N/A" →
        resolve "auditor" = none ∨
        rowStoredNA.lookup AUDITOR_COL = none ∨
        rowStoredNA.lookup AUDITOR_COL = some none) := by decide

/-- C3 (amended): `get_field` is total; it returns the stored value whenever
the name resolves to a column present in the record with a non-null value, and
it returns "N/A" exactly when the name is unresolvable, the resolved column is
absent from the record, the stored value is null, or the stored value is
itself the literal string "N/A". -/
theorem get_field_spec (r : Row) (name : String) :
    (∀ col v, resolve name = some col → r.lookup col = some (some v) →
      get_field r name = v) ∧
    (get_field r name = "N/A" ↔
      resolve name = none ∨
      ∃ col, resolve name = some col ∧
        (r.lookup col = none ∨ r.lookup col = some none ∨
         r.lookup col = some (some "N/A"))) := by
  constructor
  · intro col v hres hlook
    rw [get_field_resolved r name col hres]
    exact get_val_of_lookup_val r col v hlook
  · cases hres : resolve name with
    | none =>
      simp [get_field, hres]
    | some col =>
      rw [get_field_resolved r name col hres]
      cases hlook : r.lookup col with
      | none =>
        rw [get_val_of_lookup_none r col hlook]
        constructor
        · intro _
          exact Or.inr ⟨col, rfl, Or.inl hlook⟩
        · intro _
          rfl
      | some c =>
        cases c with
        | none =>
          rw [get_val_of_lookup_null r col hlook]
          constructor
          · intro _
            exact Or.inr ⟨col, rfl, Or.inr (Or.inl hlook)⟩
          · intro _
            rfl
        | some v =>
          rw [get_val_of_lookup_val r col v hlook]
          constructor
          · intro hv
            exact Or.inr ⟨col, rfl, Or.inr (Or.inr (by rw [hlook, hv]))⟩
          · rintro (h | ⟨c2, hc2, hcase⟩)
            · exact absurd h (by simp)
            · have hcc : c2 = col := by
                injection hc2 with h2
                exact h2.symm
              subst hcc
              rcases hcase with h3 | h3 | h3
              · rw [hlook] at h3
                exact absurd h3 (by simp)
              · rw [hlook] at h3
                exact absurd h3 (by simp)
              · rw [hlook] at h3
                injection h3 with h4
                injection h4 with h5

/-- Witness for the amended C3 theorem at concrete inputs: a stored value is
returned unchanged, a row missing the column yields the sentinel. -/
theorem get_field_spec_witness :
    get_field [(AUDITOR_COL, some "Alice")] "auditor" = "Alice" ∧
    get_field [] "auditor" = "N/A" := by
  constructor
  · exact (get_field_spec [(AUDITOR_COL, some "Alice")] "auditor").1
      AUDITOR_COL "Alice" (by decide) (by decide)
  · exact (get_field_spec [] "auditor").2.mpr
      (Or.inr ⟨AUDITOR_COL, by decide, Or.inl (by decide)⟩)

/-! Post-load application state and actions, for the frame claims. -/

/-- In-memory state after a successful load: the loaded dataframe `df`. -/
structure AppState where
  ldf : DF
deriving DecidableEq

/-- Read queries the presentation layer issues after load: the distinct
auditor list (line 105), the auditor/status filter (lines 122-125), and a
field lookup on one record (the `get_val` display calls). -/
inductive Query where
  | distinctQ : Query
  | filterQ : String → Option String → Query
  | fieldQ : Nat → String → Query

/-- Result of one read query. -/
inductive QueryResult where
  | auditors : List String → QueryResult
  | cases : DF → QueryResult
  | fieldVal : String → QueryResult
  | noRow : QueryResult

/-- Run one read query: each query computes its answer from the loaded
dataframe (the filter builds a fresh dataframe, as `.copy()` does at line 122;
`get_val` only reads) and the state passes through. -/
def runQuery (s : AppState) (q : Query) : QueryResult × AppState :=
  match q with
  | .distinctQ => (.auditors (distinct_auditors s.ldf), s)
  | .filterQ a f => (.cases (filterCases s.ldf a f), s)
  | .fieldQ i name =>
    match s.ldf.rows[i]? with
    | some r => (.fieldVal (get_field r name), s)
    | none => (.noRow, s)

/-- Run a sequence of read queries, threading the state. -/
def runQueries (s : AppState) (qs : List Query) : AppState :=
  qs.foldl (fun st q => (runQuery st q).2) s

/-- Decision capture, src/app2.py lines 305-310: the button click emits the
success message, plus the appeal-text echo when the decision is "Appeal"; the
loaded dataframe is not written (the comment at line 306 notes that a real
system would update `df` and write back). -/
def save_decision (s : AppState) (selected_case_id decision notes : String) :
    AppState × List String :=
  (s,
    if decision == "Appeal" then
      ["Decision for case " ++ selected_case_id ++ ": " ++ decision,
       "Saved appeal text:", notes]
    else
      ["Decision for case " ++ selected_case_id ++ ": " ++ decision])

/-- Post-load user action: a read query or a decision capture. -/
inductive Action where
  | query : Query → Action
  | save : String → String → String → Action

/-- Run one post-load action, keeping only the state. -/
def runAction (s : AppState) (a : Action) : AppState :=
  match a with
  | .query q => (runQuery s q).2
  | .save cid d n => (save_decision s cid d n).1

theorem runQuery_state_eq (s : AppState) (q : Query) : (runQuery s q).2 = s := by
  cases q with
  | distinctQ => rfl
  | filterQ a f => rfl
  | fieldQ i name =>
    show (match s.ldf.rows[i]? with
      | some r => (QueryResult.fieldVal (get_field r name), s)
      | none => (QueryResult.noRow, s)).2 = s
    cases s.ldf.rows[i]? <;> rfl

theorem runAction_state_eq (s : AppState) (a : Action) : runAction s a = s := by
  cases a with
  | query q => exact runQuery_state_eq s q
  | save cid d n => rfl

theorem foldl_runAction_eq (acts : List Action) (s : AppState) :
    acts.foldl runAction s = s := by
  induction acts generalizing s with
  | nil => rfl
  | cons a t ih =>
    rw [List.foldl_cons, runAction_state_eq]
    exact ih s

/-! Claim C7. -/

/-- C7: the decision-capture step returns the state unchanged, and across any
sequence of post-load actions (queries and decision captures) every loaded
record is unchanged, the status cells in particular; so no record attribute,
status included, is ever mutated after load. -/
theorem decision_step_mutates_nothing (acts : List Action) (s : AppState)
    (cid d n : String) :
    ((save_decision s cid d n).1 = s) ∧
    ((acts.foldl runAction s).ldf.rows = s.ldf.rows) ∧
    ((acts.foldl runAction s).ldf.rows.map (fun r => r.lookup STATUS_COL)
      = s.ldf.rows.map (fun r => r.lookup STATUS_COL)) := by
  refine ⟨rfl, ?_, ?_⟩
  · rw [foldl_runAction_eq]
  · rw [foldl_runAction_eq]

/-! Claim C10. -/

/-- C10: every sequence of read queries (distinct auditors, filter, field
lookup) leaves the loaded record set unchanged: the state after running the
queries holds exactly the records present immediately after load. -/
theorem queries_preserve_records (qs : List Query) (s : AppState) :
    (runQueries s qs).ldf = s.ldf := by
  have h : runQueries s qs = s := by
    induction qs generalizing s with
    | nil => rfl
    | cons q t ih =>
      unfold runQueries
      rw [List.foldl_cons, runQuery_state_eq]
      exact ih s
  rw [h]

end QCReview
